import Mathlib

/-
Verification of the xtgeo dialog subsystem (src/xtgeo/common/xtgeo_dialog.py)
via a shallow embedding in Lean 4.

Conventions of the embedding:
* Python objects become Lean structures; mutating methods become functions
  returning the updated structure (plus any printed lines / return values).
* Python `print` output is modelled as returned `String`s / `List String`.
* Python exceptions (ZeroDivisionError, ValueError) are modelled with
  `Except String`.
* Python integers are `Int` (or `Nat` where the source only ever sees
  non-negative values).  The progress percentage
  `int(float(step) / float(self._max) * 100.0)` is modelled as exact
  floor division `step * 100 / max`; for every input considered in the
  theorems below the IEEE-double computation of the source is exact and
  agrees with the floor (checked for all steps 0..29 with max = 30).
-/

namespace XTGeo

/-! ### String helpers (Python format-spec semantics) -/

/-- Python `"{:Ns}".format(s)`: left-justify, pad with spaces to width `w`. -/
def padRight (s : String) (w : Nat) : String :=
  s ++ String.mk (List.replicate (w - s.length) ' ')

/-- Python `"{:>Ns}".format(s)`: right-justify, pad with spaces to width `w`. -/
def padLeft (s : String) (w : Nat) : String :=
  String.mk (List.replicate (w - s.length) ' ') ++ s

/-- Prefix test: `startsChars p t = true` iff char list `p` is a prefix of char list `t`. -/
def startsChars : List Char → List Char → Bool
  | [], _ => true
  | _ :: _, [] => false
  | p :: ps, c :: cs => p == c && startsChars ps cs

/-- Substring test: `subChars p t = true` iff char list `p` occurs as a contiguous run in `t`. -/
def subChars (p : List Char) : List Char → Bool
  | [] => startsChars p []
  | c :: cs => startsChars p (c :: cs) || subChars p cs

/-- String `t` contains `pat` as a substring. -/
def strContains (t pat : String) : Bool := subChars pat.data t.data

/-- String `t` starts with `pat`. -/
def strStarts (t pat : String) : Bool := startsChars pat.data t.data

/-- String `t` ends with `pat`. -/
def strEnds (t pat : String) : Bool := startsChars pat.data.reverse t.data.reverse

/-- The list is strictly increasing. -/
def strictIncr : List Nat → Bool
  | [] => true
  | [_] => true
  | a :: b :: rest => a < b && strictIncr (b :: rest)

/-- The list has no repeated element. -/
def noRepeat : List Nat → Bool
  | [] => true
  | a :: rest => !(rest.contains a) && noRepeat rest

/-! ### XTGShowProgress -/

/-- State of `XTGShowProgress` (constructor arguments plus `_next`). -/
structure XTGShowProgress where
  _max : Nat
  _info : String
  _show : Bool
  _leadtext : String
  _skip : Nat
  _next : Nat
deriving DecidableEq, Repr

/-- The line printed by `flush` and `finished`:
`"{0}{1}% {2}".format(self._leadtext, progress, self._info)`. -/
def XTGShowProgress.line (s : XTGShowProgress) (progress : Nat) : String :=
  s._leadtext ++ toString progress ++ "% " ++ s._info

/-- Model of `XTGShowProgress.flush(step)`.  Returns the new state and the printed
percent/line, if any.  `float(step) / float(self._max)` raises
`ZeroDivisionError` when `self._max` is zero (Python raises on float
division by zero); otherwise the percent is the floor `step * 100 / max`,
exactly the double computation of the source on the inputs considered. -/
def XTGShowProgress.flush (s : XTGShowProgress) (step : Nat) :
    Except String (XTGShowProgress × Option (Nat × String)) :=
  if !s._show then .ok (s, none)
  else if s._max = 0 then .error "ZeroDivisionError: float division by zero"
  else
    let progress := step * 100 / s._max
    if progress ≥ s._next then
      .ok ({ s with _next := s._next + s._skip }, some (progress, s.line progress))
    else
      .ok (s, none)

/-- Model of `XTGShowProgress.finished()`: prints the 100% line unless display is off. -/
def XTGShowProgress.finished (s : XTGShowProgress) : Option String :=
  if !s._show then none else some (s.line 100)

/-- Run `flush` over a list of steps, collecting every printed
`(percent, line)` pair; propagates the first error. -/
def runFlushes (s : XTGShowProgress) (steps : List Nat) :
    Except String (XTGShowProgress × List (Nat × String)) :=
  match steps with
  | [] => .ok (s, [])
  | i :: is =>
    match s.flush i with
    | .error e => .error e
    | .ok (s1, out) =>
      match runFlushes s1 is with
      | .error e => .error e
      | .ok (s2, outs) => .ok (s2, out.toList ++ outs)

/-! ### XTGDescription -/

/-- The 99-character rule line `"=" * 99`. -/
def ruleLine : String := String.mk (List.replicate 99 '=')

/-- State of `XTGDescription`: the append-only line buffer `_txt`. -/
structure XTGDescription where
  _txt : List String
deriving DecidableEq, Repr

/-- Model of `XTGDescription.title(atitle)`: appends rule, title, rule. -/
def XTGDescription.title (d : XTGDescription) (atitle : String) : XTGDescription :=
  { d with _txt := d._txt ++ [ruleLine, atitle, ruleLine] }

/-- Model of `XTGDescription._smartfmt(atxt)`: inserts `"=>"` at index 1 and formats
with the width-spec template for the original length (1..7 fields).
For length 1 the template `"{:40s}"` consumes only the first argument, so
the inserted `"=>"` does not appear in the output.  For a length outside
1..7 the source leaves `fmt` unassigned and raises `UnboundLocalError`,
modelled as `none`. -/
def XTGDescription._smartfmt (atxt : List String) : Option String :=
  match atxt with
  | [f1] => some (padRight f1 40)
  | [f1, f2] =>
      some (padRight f1 40 ++ " " ++ padLeft "=>" 2 ++ " " ++ f2)
  | [f1, f2, f3] =>
      some (padRight f1 40 ++ " " ++ padLeft "=>" 2 ++ " " ++ f2 ++ "  " ++ f3)
  | [f1, f2, f3, f4] =>
      some (padRight f1 40 ++ " " ++ padLeft "=>" 2 ++ " " ++ f2 ++ "  " ++ f3
        ++ "  " ++ f4)
  | [f1, f2, f3, f4, f5] =>
      some (padRight f1 40 ++ " " ++ padLeft "=>" 2 ++ " " ++ f2 ++ "  " ++ f3
        ++ "  " ++ f4 ++ "  " ++ f5)
  | [f1, f2, f3, f4, f5, f6] =>
      some (padRight f1 40 ++ " " ++ padLeft "=>" 2 ++ " " ++ f2 ++ "  " ++ f3
        ++ "  " ++ f4 ++ "  " ++ f5 ++ "  " ++ f6)
  | [f1, f2, f3, f4, f5, f6, f7] =>
      some (padRight f1 40 ++ " " ++ padLeft "=>" 2 ++ " " ++ f2 ++ "  " ++ f3
        ++ "  " ++ f4 ++ "  " ++ f5 ++ "  " ++ f6 ++ "  " ++ f7)
  | _ => none

/-- Model of `XTGDescription.txt(*atxt)`: appends the smart-formatted row;
`none` models the `UnboundLocalError` for 0 or more than 7 fields. -/
def XTGDescription.txt (d : XTGDescription) (atxt : List String) :
    Option XTGDescription :=
  (XTGDescription._smartfmt atxt).map (fun fmt => { d with _txt := d._txt ++ [fmt] })

/-- Model of `XTGDescription.astext()`: appends a trailing rule line to the buffer
(side effect), then returns all lines joined by newlines with the final
newline stripped (`thetext[:-1]`).  Returns (mutated buffer, text). -/
def XTGDescription.astext (d : XTGDescription) : XTGDescription × String :=
  let t := d._txt ++ [ruleLine]
  (⟨t⟩, (String.join (t.map (fun line => line ++ "\n"))).dropRight 1)

/-! ### Logging handlers (Python `logging` module state relevant here) -/

/-- A registered output handler of the root logger.  A `_TimeFilter`
instance is identified by a `Nat` id; `Handler.addFilter` only skips the
append when the very same instance is already installed, so distinct fresh
instances always accumulate.  `formatter` holds the format string of the
installed `logging.Formatter`. -/
structure Handler where
  filters : List Nat
  formatter : Option String
deriving DecidableEq, Repr

/-- Python `logging.Handler.addFilter`: appends unless already present. -/
def Handler.addFilter (h : Handler) (f : Nat) : Handler :=
  if f ∈ h.filters then h else { h with filters := h.filters ++ [f] }

/-- Python `logging.Handler.setFormatter`: replaces the formatter. -/
def Handler.setFormatter (h : Handler) (fmt : String) : Handler :=
  { h with formatter := some fmt }

/-- Root-logger state: handler list, effective level, and a freshness
counter supplying ids for newly constructed `_TimeFilter` instances (a
fresh Python object is distinct from every existing one). -/
structure LoggerState where
  handlers : List Handler
  level : Int
  fcounter : Nat
deriving DecidableEq, Repr

/-- A logger state is well formed when every installed filter id was drawn
from the freshness counter, i.e. is below it (true of every state reachable
from a fresh root logger). -/
def LoggerState.WFb (log : LoggerState) : Bool :=
  log.handlers.all (fun h => h.filters.all (fun f => f < log.fcounter))

/-- Model of `logging.basicConfig(stream=sys.stdout)`: adds one handler to the root
logger if it has none, otherwise does nothing. -/
def LoggerState.basicConfig (log : LoggerState) : LoggerState :=
  match log.handlers with
  | [] => { log with handlers := [⟨[], none⟩] }
  | _ :: _ => log

/-! ### XTGeoDialog -/

/-- ANSI escape prefixes from the module header. -/
def WARNC : String := "\x1b[93;43m"

/-- ANSI escape for error messages. -/
def ERRORC : String := "\x1b[93;41m"

/-- ANSI escape for critical messages. -/
def CRITICALC : String := "\x1b[1;91m"

/-- ANSI reset. -/
def ENDC : String := "\x1b[0m"

/-- State of an `XTGeoDialog` instance (the fields of `__init__` that the
message/logging operations read or write).  `_caller` and `_callclass` are
initialised to `None` in Python but are only ever formatted after
`get_callerinfo` has stored strings into them; they are modelled as
strings. -/
structure XTGeoDialog where
  _callclass : String
  _caller : String
  _lformat : Option String
  _lformatlevel : Int
  _logginglevel : String
  _logginglevel_fromenv : Option String
  _loggingname : String
  _syslevel : Int
  _showrtwarnings : Bool
deriving DecidableEq, Repr

/-- Model of the `XTGeoDialog.syslevel` setter: accepts `0 <= mylevel < 5`, otherwise
prints a diagnostic and keeps the stored value; afterwards, if the
`XTG_VERBOSE_LEVEL` environment value exists, it overwrites the stored
syslevel unconditionally.  Returns (new state, printed lines). -/
def XTGeoDialog.syslevelSetter (st : XTGeoDialog) (mylevel : Int)
    (envsyslevel : Option Int) : XTGeoDialog × List String :=
  let base :=
    if mylevel < 5 ∧ 0 ≤ mylevel then ({ st with _syslevel := mylevel }, [])
    else (st, ["Invalid range for syslevel"])
  match envsyslevel with
  | none => base
  | some v => ({ base.1 with _syslevel := v }, base.2)

/-- The tuple of valid logging levels. -/
def validlevels : List String := ["INFO", "WARNING", "DEBUG", "CRITICAL"]

/-- Model of the `XTGeoDialog.logginglevel` setter: stores a valid level, raises
`ValueError` otherwise (the Python message interpolates the tuple repr;
only its fixed lead text is modelled). -/
def XTGeoDialog.logginglevelSetter (st : XTGeoDialog) (level : String) :
    Except String XTGeoDialog :=
  if level ∈ validlevels then .ok { st with _logginglevel := level }
  else .error ("Invalid level given, must be in "
    ++ String.intercalate ", " validlevels)

/-- Model of `XTGeoDialog.numericallogginglevel`: maps the enum to the standard
`logging` ordinals (DEBUG 10, INFO 20, WARNING 30, CRITICAL 50). -/
def XTGeoDialog.numericallogginglevel (st : XTGeoDialog) : Int :=
  if st._logginglevel = "INFO" then 20
  else if st._logginglevel = "WARNING" then 30
  else if st._logginglevel = "DEBUG" then 10
  else 50

/-- The three formatter templates selected by `_lformatlevel` in the
`loggingformat` property. -/
def fmtTemplate (lvl : Int) : String :=
  if lvl ≤ 1 then "%(levelname)8s: (%(relative)ss) \t%(message)s"
  else if lvl = 2 then
    "%(levelname)8s (%(relative)ss) %(name)44s [%(funcName)40s()] %(lineno)4d >> \t%(message)s"
  else
    "%(asctime)s Line: %(lineno)4d %(name)44s (Delta=%(relative)ss) [%(funcName)40s()]%(levelname)8s:\t%(message)s"

/-- The two handler-mutating list comprehensions of the `loggingformat`
property: every handler gets `addFilter(_TimeFilter())` with a fresh
filter instance (ids `c`, `c+1`, ...) and `setFormatter(fmt)`. -/
def installAll (c : Nat) (fmt : String) : List Handler → List Handler
  | [] => []
  | h :: hs => (h.addFilter c).setFormatter fmt :: installAll (c + 1) fmt hs

/-- Model of the `XTGeoDialog.loggingformat` property: chooses the template for
`_lformatlevel`, installs a fresh delta-time filter and the formatter on
every registered handler, stores the format string in `_lformat` and
returns it.  Returns (new dialog, new logger state, format string). -/
def XTGeoDialog.loggingformat (st : XTGeoDialog) (log : LoggerState) :
    XTGeoDialog × LoggerState × String :=
  let fmt := fmtTemplate st._lformatlevel
  let log2 : LoggerState :=
    { log with
        handlers := installAll log.fcounter fmt log.handlers
        fcounter := log.fcounter + log.handlers.length }
  ({ st with _lformat := some fmt }, log2, fmt)

/-- Model of `XTGeoDialog.basiclogger(name, logginglevel, loggingformat, info)`:
sets the logging level from the argument only when no environment level
was captured at construction, optionally sets the format level, runs
`basicConfig`, applies the `loggingformat` property and sets the root
level.  Raises (`.error`) when the level argument is invalid and applied. -/
def XTGeoDialog.basiclogger (st : XTGeoDialog) (log : LoggerState)
    (name : String) (logginglevel : Option String) (lformat : Option Int) :
    Except String (XTGeoDialog × LoggerState) :=
  let step1 : Except String XTGeoDialog :=
    match logginglevel, st._logginglevel_fromenv with
    | some l, none => st.logginglevelSetter l
    | _, _ => .ok st
  match step1 with
  | .error e => .error e
  | .ok st1 =>
    let st2 := match lformat with
      | some f => { st1 with _lformatlevel := f }
      | none => st1
    let log1 := log.basicConfig
    let (st3, log2, _) := XTGeoDialog.loggingformat st2 log1
    let st4 := { st3 with _loggingname := name }
    .ok (st4, { log2 with level := st4.numericallogginglevel })

/-! ### Caller inspection -/

/-- A Python class object; `strRepr` is what `str(cls)` yields. -/
structure PyClass where
  strRepr : String
deriving DecidableEq, Repr

/-- A Python value as seen in the local bindings of a frame: the `None`
sentinel, or an object with a truthiness and (possibly) a `__class__`. -/
inductive PyVal where
  | pynone : PyVal
  | obj (truthy : Bool) (cls : Option PyClass) : PyVal
deriving DecidableEq, Repr

/-- Python truthiness of the modelled values. -/
def PyVal.isTruthy : PyVal → Bool
  | .pynone => false
  | .obj t _ => t

/-- Python `getattr(instance, "__class__", None)`. -/
def PyVal.classAttr : PyVal → Option PyClass
  | .pynone => none
  | .obj _ c => c

/-- A call-stack frame as `inspect.getargvalues` exposes it: the argument
argument names of the frame function and its local bindings. -/
structure Frame where
  args : List String
  value_dict : List (String × PyVal)
deriving DecidableEq, Repr

/-- Model of `XTGeoDialog._get_class_from_frame(fr)`: when the first
parameter of the frame function is named `self` and its bound value is
truthy, return the class of that value; otherwise `None`. -/
def _get_class_from_frame (fr : Frame) : Option PyClass :=
  match fr.args with
  | a :: _ =>
    if a = "self" then
      match fr.value_dict.lookup "self" with
      | some inst => if inst.isTruthy then inst.classAttr else none
      | none => none
    else none
  | [] => none

/-- Python `str(x)` for the optional class: `str(None)` is `"None"`. -/
def pyStr : Option PyClass → String
  | none => "None"
  | some c => c.strRepr

/-- Split a character list at every `.` (Python `str.split(".")`). -/
def splitDots : List Char → List (List Char)
  | [] => [[]]
  | c :: rest =>
    match splitDots rest with
    | [] => [[c]]
    | h :: t => if c = '.' then [] :: h :: t else (c :: h) :: t

/-- Python `str(the_class).split(".")[-1]`: the last dot-separated component. -/
def lastDotComponent (s : String) : String :=
  String.mk ((splitDots s.data).getLastD [])

/-- Model of `XTGeoDialog.get_callerinfo(caller, frame)`: stores the caller name
and the last dot-component of `str(the_class)` (which is the placeholder
`"None"` when no class was found), returning the pair. -/
def XTGeoDialog.get_callerinfo (st : XTGeoDialog) (caller : String)
    (frame : Frame) : XTGeoDialog × (String × String) :=
  let the_class := lastDotComponent (pyStr (_get_class_from_frame frame))
  ({ st with _caller := caller, _callclass := the_class },
   (caller, the_class))

/-! ### Message emission -/

/-- The prefix chosen by `_output` for each `idx`. -/
def preOf (idx : Nat) : String :=
  if idx = 0 then "++"
  else if idx = 1 then "**"
  else if idx = 3 then ">>"
  else if idx = 6 then WARNC ++ "##"
  else if idx = 8 then ERRORC ++ "!#"
  else if idx = 9 then CRITICALC ++ "!!"
  else ""

/-- The endfix chosen by `_output` for each `idx` (ANSI reset for the
colorized tiers). -/
def endOf (idx : Nat) : String :=
  if idx = 6 ∨ idx = 8 ∨ idx = 9 then ENDC else ""

/-- The severity code of the rich output line: `str(level)` overridden to
`"M"`, `"E"`, `"W"` for levels `-5`, `-8`, `-9` respectively. -/
def ulevelOf (level : Int) : String :=
  if level = -5 then "M"
  else if level = -8 then "E"
  else if level = -9 then "W"
  else toString level

/-- The rich output line
`"{0} <{1}> [{2:23s}->{3:>33s}] {4}{5}"` of `_output`. -/
def richline (st : XTGeoDialog) (idx : Nat) (level : Int) (string : String) :
    String :=
  preOf idx ++ " <" ++ ulevelOf level ++ "> [" ++ padRight st._callclass 23
    ++ "->" ++ padLeft st._caller 33 ++ "] " ++ string ++ endOf idx

/-- Model of `XTGeoDialog._output(idx, level, string)`: prints iff
`level <= self._syslevel`; plain format when `self._syslevel <= 1`, rich
format otherwise.  Returns the printed line, if any. -/
def XTGeoDialog._output (st : XTGeoDialog) (idx : Nat) (level : Int)
    (string : String) : Option String :=
  if level ≤ st._syslevel then
    if st._syslevel ≤ 1 then
      some (preOf idx ++ " " ++ string ++ endOf idx)
    else
      some (richline st idx level string)
  else
    none

/-- Model of `XTGeoDialog.insane`. -/
def XTGeoDialog.insane (st : XTGeoDialog) (string : String) : Option String :=
  st._output 0 4 string

/-- Model of `XTGeoDialog.trace`. -/
def XTGeoDialog.trace (st : XTGeoDialog) (string : String) : Option String :=
  st._output 0 3 string

/-- Model of `XTGeoDialog.debug`. -/
def XTGeoDialog.debug (st : XTGeoDialog) (string : String) : Option String :=
  st._output 0 2 string

/-- Model of `XTGeoDialog.speak` (alias `info`). -/
def XTGeoDialog.speak (st : XTGeoDialog) (string : String) : Option String :=
  st._output 1 1 string

/-- Model of `XTGeoDialog.say`. -/
def XTGeoDialog.say (st : XTGeoDialog) (string : String) : Option String :=
  st._output 3 (-5) string

/-- Model of `XTGeoDialog.warn` (alias `warning`): only reaches `_output` when the
runtime-warnings flag is enabled. -/
def XTGeoDialog.warn (st : XTGeoDialog) (string : String) : Option String :=
  if st._showrtwarnings then st._output 6 0 string else none

/-- Model of `XTGeoDialog.error`. -/
def XTGeoDialog.error (st : XTGeoDialog) (string : String) : Option String :=
  st._output 8 (-8) string

/-- Model of `XTGeoDialog.critical(string, sysexit)`: emits, then raises
`SystemExit` when `sysexit` is true.  Returns (printed line, raises). -/
def XTGeoDialog.critical (st : XTGeoDialog) (string : String)
    (sysexit : Bool) : Option String × Bool :=
  (st._output 9 (-9) string, sysexit)

/-- The nine-tier table: each message method by name. -/
inductive Tier where
  | insane | trace | debug | speak | say | warn | error | critical
deriving DecidableEq, Repr

/-- The numeric level each tier passes to `_output`. -/
def Tier.level : Tier → Int
  | .insane => 4
  | .trace => 3
  | .debug => 2
  | .speak => 1
  | .say => -5
  | .warn => 0
  | .error => -8
  | .critical => -9

/-- The message printed by the method of the tier (for `critical`, with the
default `sysexit=True`, before the `SystemExit` is raised). -/
def emit (st : XTGeoDialog) (t : Tier) (string : String) : Option String :=
  match t with
  | .insane => st.insane string
  | .trace => st.trace string
  | .debug => st.debug string
  | .speak => st.speak string
  | .say => st.say string
  | .warn => st.warn string
  | .error => st.error string
  | .critical => (st.critical string true).1

/-- A default dialog state used by the concrete theorems: the constructor
values with no environment overrides (`_syslevel` ends up 0). -/
def xdlg0 : XTGeoDialog :=
  { _callclass := "None", _caller := "None", _lformat := none,
    _lformatlevel := 1, _logginglevel := "CRITICAL",
    _logginglevel_fromenv := none, _loggingname := "", _syslevel := 0,
    _showrtwarnings := true }

/-! ### Concrete fixtures used by the theorems -/

/-- A root logger with a single pristine handler. -/
def log0 : LoggerState := ⟨[⟨[], none⟩], 50, 0⟩

/-- A progress reporter over 30 steps with the default skip and display on. -/
def prog30 : XTGShowProgress := ⟨30, "", true, "", 1, 0⟩

/-- A progress reporter with `maxiter = 0` and display on. -/
def zeroProg : XTGShowProgress := ⟨0, "", true, "", 1, 0⟩

/-- The full run of `flush(i)` for `i = 0..29` on `prog30`. -/
def c5run : Except String (XTGShowProgress × List (Nat × String)) :=
  runFlushes prog30 (List.range 30)

/-- Final state and printed (percent, line) pairs of the run. -/
def c5res : XTGShowProgress × List (Nat × String) :=
  c5run.toOption.getD (prog30, [])

/-- The printed percent values of the run. -/
def c5percents : List Nat := c5res.2.map Prod.fst

/-- The buffer after `title("T")` then `txt("a","b")`. -/
def c6desc : Option XTGDescription :=
  XTGDescription.txt (XTGDescription.title ⟨[]⟩ "T") ["a", "b"]

/-- The text returned by `astext()` on that buffer. -/
def c6str : String := (c6desc.map (fun d => d.astext.2)).getD ""

/-- The formatted row for fields `a`, `b`. -/
def c6row : String := padRight "a" 40 ++ " " ++ padLeft "=>" 2 ++ " " ++ "b"

/-- A dialog whose construction captured `XTG_LOGGING_LEVEL=INFO`. -/
def stEnvINFO : XTGeoDialog :=
  { xdlg0 with _logginglevel := "INFO", _logginglevel_fromenv := some "INFO" }

/-- The `basiclogger` call on `stEnvINFO` with an explicit `DEBUG` level argument. -/
def c3run : Except String (XTGeoDialog × LoggerState) :=
  XTGeoDialog.basiclogger stEnvINFO log0 "n" (some "DEBUG") none

/-- The resulting (dialog, logger) pair of that call. -/
def c3res : XTGeoDialog × LoggerState := c3run.toOption.getD (xdlg0, log0)

/-- A dialog in rich output mode (`syslevel = 2`). -/
def stRich : XTGeoDialog := { xdlg0 with _syslevel := 2 }

/-- The line emitted by `warn("hello")` in rich mode. -/
def c4line : String := (stRich.warn "hello").getD ""

/-- A calling frame whose function is not bound to an instance (its first
parameter is not named `self`). -/
def frameNoSelf : Frame := ⟨["x"], []⟩

/-- The rich-mode dialog after caller attribution from `frameNoSelf`. -/
def stRichNoSelf : XTGeoDialog :=
  (XTGeoDialog.get_callerinfo stRich "afunc" frameNoSelf).1

/-! ### Helper lemmas -/

/-- The `_output` routine prints something exactly when the level passes the gate. -/
theorem output_isSome (st : XTGeoDialog) (idx : Nat) (level : Int)
    (msg : String) :
    (st._output idx level msg).isSome = true ↔ level ≤ st._syslevel := by
  unfold XTGeoDialog._output
  by_cases h : level ≤ st._syslevel <;> simp [h]
  split <;> simp

/-- Any char list is a prefix of itself followed by anything. -/
theorem startsChars_self_append (p t : List Char) :
    startsChars p (p ++ t) = true := by
  induction p with
  | nil => rfl
  | cons c cs ih => simp [startsChars, ih]

/-- A char list starting as `p ++ u` has `p` as a prefix. -/
theorem startsChars_of_eq (p t u : List Char) (h : t = p ++ u) :
    startsChars p t = true :=
  h ▸ startsChars_self_append p u

/-! ### C1 -/

/-- Claim C1: for every tier with numeric level `L` and every stored
syslevel `s` (with the runtime-warnings flag enabled, as the claim
requires for `warn`), the message is printed iff `L ≤ s`. -/
theorem C1_gate_iff (st : XTGeoDialog) (t : Tier) (msg : String)
    (hw : st._showrtwarnings = true) :
    (emit st t msg).isSome = true ↔ t.level ≤ st._syslevel := by
  cases t <;>
    simp [emit, XTGeoDialog.insane, XTGeoDialog.trace, XTGeoDialog.debug,
      XTGeoDialog.speak, XTGeoDialog.say, XTGeoDialog.warn,
      XTGeoDialog.error, XTGeoDialog.critical, hw, Tier.level,
      output_isSome]

/-- Witness for C1: at the default dialog (`syslevel = 0`, warnings on),
the `warn` tier (level 0) passes the gate. -/
theorem C1_gate_iff_witness :
    xdlg0._showrtwarnings = true ∧
      ((emit xdlg0 .warn "msg").isSome = true ↔
        Tier.level .warn ≤ xdlg0._syslevel) :=
  ⟨rfl, C1_gate_iff xdlg0 .warn "msg" rfl⟩

/-! ### C5 -/

/-- Claim C5: with `maxiter = 30`, default `skip = 1` and display on,
`flush(i)` for `i = 0..29` prints a strictly increasing, non-repeating
sequence of percent values (here all 30 calls print, ending at 96), and
`finished()` prints the 100% line even though the last flushed percent
was 96 < 100. -/
theorem C5_progress :
    c5run.toOption = some c5res
    ∧ strictIncr c5percents = true
    ∧ noRepeat c5percents = true
    ∧ c5percents.length = 30
    ∧ c5percents.getLast? = some 96
    ∧ 96 < 100
    ∧ c5res.1.finished = some (c5res.1.line 100) := by
  decide

/-! ### C6 -/

set_option maxRecDepth 100000 in
/-- Claim C6: `title("T")`, `txt("a","b")`, `astext()` yields a string
that starts with the 99-character rule line, contains `"T"`, contains the
row with `"a"`, the separator `"=>"` and `"b"`, and ends with the
99-character rule line with no trailing newline. -/
theorem C6_description :
    c6desc.map (fun d => d.astext.2) = some c6str
    ∧ ruleLine.length = 99
    ∧ strStarts c6str (ruleLine ++ "\n") = true
    ∧ strContains c6str "T" = true
    ∧ strContains c6str c6row = true
    ∧ strContains c6str "=>" = true
    ∧ strEnds c6str ("\n" ++ ruleLine) = true
    ∧ strEnds c6str "\n" = false := by
  decide

/-! ### C7 -/

/-- Claim C7: for every input `n` outside `[0,5)`, setting syslevel leaves
the stored syslevel unchanged (when no environment value exists), raises
no error — the setter is a total function into (state, printed lines) —
and prints exactly the diagnostic line; and whenever an environment value
`v` exists, it overwrites the stored syslevel after every set call, valid
or not. -/
theorem C7_syslevel :
    (∀ (st : XTGeoDialog) (n : Int) (env : Option Int),
      ¬(0 ≤ n ∧ n < 5) →
        (env = none → (st.syslevelSetter n env).1._syslevel = st._syslevel)
        ∧ (st.syslevelSetter n env).2 = ["Invalid range for syslevel"])
    ∧ (∀ (st : XTGeoDialog) (n : Int) (v : Int),
        (st.syslevelSetter n (some v)).1._syslevel = v) := by
  constructor
  · intro st n env hn
    have h : ¬(n < 5 ∧ 0 ≤ n) := fun ⟨a, b⟩ => hn ⟨b, a⟩
    cases env <;> simp [XTGeoDialog.syslevelSetter, h]
  · intro st n v
    unfold XTGeoDialog.syslevelSetter
    split <;> rfl

/-- Witness for C7: `n = 10` is rejected with only the diagnostic printed
and the stored value kept, and an environment value 3 overwrites. -/
theorem C7_syslevel_witness :
    ¬((0:Int) ≤ 10 ∧ (10:Int) < 5)
    ∧ (xdlg0.syslevelSetter 10 none).1._syslevel = xdlg0._syslevel
    ∧ (xdlg0.syslevelSetter 10 none).2 = ["Invalid range for syslevel"]
    ∧ (xdlg0.syslevelSetter 10 (some 3)).1._syslevel = 3 :=
  ⟨by decide,
   (C7_syslevel.1 xdlg0 10 none (by decide)).1 rfl,
   (C7_syslevel.1 xdlg0 10 none (by decide)).2,
   C7_syslevel.2 xdlg0 10 3⟩

/-! ### C10 -/

/-- Claim C10: `flush` divides by `_max` with no guard: with display
enabled, every flush succeeds when `_max ≥ 1`, and every flush fails with
a division error — returning no printed line — when `_max = 0`. -/
theorem C10_flush_safety :
    (∀ (s : XTGShowProgress) (step : Nat), s._show = true → 1 ≤ s._max →
      ∃ r, s.flush step = .ok r)
    ∧ (∀ (s : XTGShowProgress) (step : Nat), s._show = true → s._max = 0 →
      s.flush step = .error "ZeroDivisionError: float division by zero") := by
  constructor
  · intro s step hs hm
    have h0 : ¬s._max = 0 := by omega
    unfold XTGShowProgress.flush
    simp only [hs, h0, Bool.not_true, if_false, ite_false]
    by_cases hc : step * 100 / s._max ≥ s._next
    · exact ⟨({ s with _next := s._next + s._skip },
        some (step * 100 / s._max, s.line (step * 100 / s._max))), by simp [hc, hs]⟩
    · exact ⟨(s, none), by simp [hc]⟩
  · intro s step hs hm
    simp [XTGShowProgress.flush, hs, hm]

/-- Witness for C10: `prog30` (max 30, display on) flushes fine; the
`maxiter = 0` reporter fails with the division error. -/
theorem C10_flush_safety_witness :
    (prog30._show = true ∧ 1 ≤ prog30._max ∧ ∃ r, prog30.flush 5 = .ok r)
    ∧ (zeroProg._show = true ∧ zeroProg._max = 0
        ∧ zeroProg.flush 5 = .error "ZeroDivisionError: float division by zero") :=
  ⟨⟨rfl, by decide, C10_flush_safety.1 prog30 5 rfl (by decide)⟩,
   ⟨rfl, rfl, C10_flush_safety.2 zeroProg 5 rfl rfl⟩⟩

/-! ### C4 -/

/-- Counterexample to C4: in rich mode (`syslevel = 2`, warnings enabled)
the emitted warn line carries `"<0>"` in its severity-code field and
contains no `"W"` at all — `ulevelOf 0` is `str(0)`, not `"W"`. -/
theorem C4_counterexample :
    1 < stRich._syslevel
    ∧ stRich._showrtwarnings = true
    ∧ stRich.warn "hello" = some c4line
    ∧ strContains c4line "<0>" = true
    ∧ strContains c4line "W" = false := by
  decide

/-- Claim C4 amended: in rich output mode an emitted warn line carries the
severity code `ulevelOf 0 = "0"` (the decimal numeric level); the letter
`"W"` is attached to the critical tier (level -9) instead. -/
theorem C4_warn_code (st : XTGeoDialog) (msg : String)
    (hw : st._showrtwarnings = true) (hs : 1 < st._syslevel) :
    st.warn msg = some (richline st 6 0 msg)
    ∧ ulevelOf 0 = "0"
    ∧ ulevelOf (-9) = "W" := by
  refine ⟨?_, rfl, rfl⟩
  have h0 : (0:Int) ≤ st._syslevel := by omega
  have h1 : ¬st._syslevel ≤ 1 := by omega
  simp [XTGeoDialog.warn, XTGeoDialog._output, hw, h0, h1]

/-- Witness for C4: the rich-mode dialog emits the `"0"`-coded line. -/
theorem C4_warn_code_witness :
    stRich._showrtwarnings = true ∧ 1 < stRich._syslevel
    ∧ (stRich.warn "hello" = some (richline stRich 6 0 "hello")
        ∧ ulevelOf 0 = "0" ∧ ulevelOf (-9) = "W") :=
  ⟨rfl, by decide, C4_warn_code stRich "hello" rfl (by decide)⟩

/-! ### C8 -/

/-- Counterexample to C8: when the calling function is not bound to an
instance, the class component is not absent — the placeholder string
`"None"` (the `str` of Python `None`) is recorded in `_callclass`,
returned, and printed in the rich-mode output line. -/
theorem C8_counterexample :
    frameNoSelf.args.head? ≠ some "self"
    ∧ (XTGeoDialog.get_callerinfo stRich "afunc" frameNoSelf).1._callclass = "None"
    ∧ (XTGeoDialog.get_callerinfo stRich "afunc" frameNoSelf).2.2 = "None"
    ∧ strContains ((stRichNoSelf.warn "msg").getD "") "None" = true
    ∧ ("None" : String) ≠ "" := by
  decide

/-- Claim C8 amended: for every message call whose calling function is not
bound to an instance (first parameter of the frame not named `self`), the
caller-attribution class component is recorded as the placeholder string
`"None"` rather than being absent. -/
theorem C8_callerclass (st : XTGeoDialog) (caller : String) (fr : Frame)
    (h : fr.args.head? ≠ some "self") :
    (st.get_callerinfo caller fr).1._callclass = "None"
    ∧ (st.get_callerinfo caller fr).2.2 = "None" := by
  have hclass : _get_class_from_frame fr = none := by
    unfold _get_class_from_frame
    match fr, h with
    | ⟨[], _⟩, h => rfl
    | ⟨a :: as, vd⟩, h =>
      have ha : ¬a = "self" := by simpa using h
      simp [ha]
  constructor <;> simp [XTGeoDialog.get_callerinfo, hclass] <;> rfl

/-- Witness for C8: the unbound frame yields the recorded `"None"`. -/
theorem C8_callerclass_witness :
    frameNoSelf.args.head? ≠ some "self"
    ∧ ((XTGeoDialog.get_callerinfo xdlg0 "afunc" frameNoSelf).1._callclass = "None"
        ∧ (XTGeoDialog.get_callerinfo xdlg0 "afunc" frameNoSelf).2.2 = "None") :=
  ⟨by decide, C8_callerclass xdlg0 "afunc" frameNoSelf (by decide)⟩

/-! ### C9 -/

/-- Counterexample to C9: for a one-field row the format template
`"{:40s}"` consumes only the first argument, so the appended line is the
bare width-40-padded field and contains no `"=>"` separator at all. -/
theorem C9_counterexample :
    XTGDescription._smartfmt ["a"] = some (padRight "a" 40)
    ∧ strContains (padRight "a" 40) "=>" = false := by
  decide

/-- Claim C9 amended: for every row of `k` fields with `2 ≤ k ≤ 7` the
appended line starts with the width-40-padded first field followed by a
space, the literal separator `"=>"` and a space; for `k = 1` no separator
is inserted — the line is exactly the padded first field. -/
theorem C9_row_separator :
    (∀ f1 : String, XTGDescription._smartfmt [f1] = some (padRight f1 40))
    ∧ (∀ (f1 : String) (rest : List String), rest ≠ [] → rest.length ≤ 6 →
        (XTGDescription._smartfmt (f1 :: rest)).isSome = true
        ∧ strStarts ((XTGDescription._smartfmt (f1 :: rest)).getD "")
            (padRight f1 40 ++ " " ++ padLeft "=>" 2 ++ " ") = true) := by
  refine ⟨fun f1 => rfl, ?_⟩
  intro f1 rest hne hlen
  match rest with
  | [] => exact absurd rfl hne
  | [f2] =>
    refine ⟨rfl, ?_⟩
    simp only [XTGDescription._smartfmt, Option.getD_some, strStarts,
      String.data_append]
    exact startsChars_of_eq _ _ f2.data (by simp)
  | [f2, f3] =>
    refine ⟨rfl, ?_⟩
    simp only [XTGDescription._smartfmt, Option.getD_some, strStarts,
      String.data_append]
    exact startsChars_of_eq _ _
      (f2.data ++ ' ' :: ' ' :: f3.data) (by simp)
  | [f2, f3, f4] =>
    refine ⟨rfl, ?_⟩
    simp only [XTGDescription._smartfmt, Option.getD_some, strStarts,
      String.data_append]
    exact startsChars_of_eq _ _
      (f2.data ++ ' ' :: ' ' :: (f3.data ++ ' ' :: ' ' :: f4.data)) (by simp)
  | [f2, f3, f4, f5] =>
    refine ⟨rfl, ?_⟩
    simp only [XTGDescription._smartfmt, Option.getD_some, strStarts,
      String.data_append]
    exact startsChars_of_eq _ _
      (f2.data ++ ' ' :: ' ' :: (f3.data ++ ' ' :: ' ' ::
        (f4.data ++ ' ' :: ' ' :: f5.data))) (by simp)
  | [f2, f3, f4, f5, f6] =>
    refine ⟨rfl, ?_⟩
    simp only [XTGDescription._smartfmt, Option.getD_some, strStarts,
      String.data_append]
    exact startsChars_of_eq _ _
      (f2.data ++ ' ' :: ' ' :: (f3.data ++ ' ' :: ' ' ::
        (f4.data ++ ' ' :: ' ' :: (f5.data ++ ' ' :: ' ' :: f6.data)))) (by simp)
  | [f2, f3, f4, f5, f6, f7] =>
    refine ⟨rfl, ?_⟩
    simp only [XTGDescription._smartfmt, Option.getD_some, strStarts,
      String.data_append]
    exact startsChars_of_eq _ _
      (f2.data ++ ' ' :: ' ' :: (f3.data ++ ' ' :: ' ' ::
        (f4.data ++ ' ' :: ' ' :: (f5.data ++ ' ' :: ' ' ::
          (f6.data ++ ' ' :: ' ' :: f7.data))))) (by simp)
  | _ :: _ :: _ :: _ :: _ :: _ :: _ :: _ => simp at hlen

/-- Witness for C9: the two-field row `("a","b")`. -/
theorem C9_row_separator_witness :
    (XTGDescription._smartfmt ["a"] = some (padRight "a" 40))
    ∧ (["b"] : List String) ≠ []
    ∧ (["b"] : List String).length ≤ 6
    ∧ ((XTGDescription._smartfmt ["a", "b"]).isSome = true
        ∧ strStarts ((XTGDescription._smartfmt ["a", "b"]).getD "")
            (padRight "a" 40 ++ " " ++ padLeft "=>" 2 ++ " ") = true) :=
  ⟨C9_row_separator.1 "a", by decide, by decide,
   C9_row_separator.2 "a" ["b"] (by decide) (by decide)⟩

/-! ### C2 -/

/-- Counterexample to C2: starting from a root logger with one pristine
handler, one `loggingformat` call installs one delta-time filter, a second
call installs a second one — the handler does not end with exactly one
filter, and the state differs from the single-call state. -/
theorem C2_counterexample :
    ((XTGeoDialog.loggingformat xdlg0 log0).2.1).handlers.map
        (fun h => h.filters.length) = [1]
    ∧ ((XTGeoDialog.loggingformat (XTGeoDialog.loggingformat xdlg0 log0).1
          ((XTGeoDialog.loggingformat xdlg0 log0).2.1)).2.1).handlers.map
        (fun h => h.filters.length) = [2]
    ∧ ¬(∀ h ∈ ((XTGeoDialog.loggingformat (XTGeoDialog.loggingformat xdlg0 log0).1
          ((XTGeoDialog.loggingformat xdlg0 log0).2.1)).2.1).handlers,
        h.filters.length = 1) := by
  decide

/-- Two passes of the handler-mutating comprehensions over fresh filter
ids: the formatter is replaced (one formatter, the given template), while
each pass appends one more filter. -/
theorem installAll_twice (fmt : String) :
    ∀ (hs : List Handler) (c c2 : Nat),
      (∀ h ∈ hs, ∀ f ∈ h.filters, f < c) → c < c2 →
      (installAll c2 fmt (installAll c fmt hs)).map
          (fun h => (h.formatter, h.filters.length))
        = hs.map (fun h => (some fmt, h.filters.length + 2)) := by
  intro hs
  induction hs with
  | nil => intro c c2 _ _; rfl
  | cons h t ih =>
    intro c c2 hall hcc
    have hc : c ∉ h.filters := fun hmem =>
      absurd (hall h (List.mem_cons_self h t) c hmem) (lt_irrefl c)
    have hc2 : c2 ∉ h.filters ++ [c] := by
      intro hmem
      rcases List.mem_append.mp hmem with hm | hm
      · have := hall h (List.mem_cons_self h t) c2 hm
        omega
      · simp at hm
        omega
    have htail : ∀ h2 ∈ t, ∀ f ∈ h2.filters, f < c + 1 := by
      intro h2 hh2 f hf
      have := hall h2 (List.mem_cons_of_mem h hh2) f hf
      omega
    simp only [installAll, Handler.addFilter, Handler.setFormatter,
      if_neg hc, if_neg hc2, List.map_cons, List.length_append,
      List.length_cons, List.length_nil]
    refine congrArg₂ _ ?_ (ih (c + 1) (c2 + 1) htail (by omega))
    simp

/-- Claim C2 amended: with every installed filter id fresh-drawn
(`WFb`), calling `loggingformat` twice leaves every registered handler
with exactly one formatter — the template for the current format level,
replaced not stacked — but with two delta-time filters: each call appends
a fresh filter instance instead of replacing the previous one. -/
theorem C2_formatter_filters (st : XTGeoDialog) (log : LoggerState)
    (hwf : log.WFb = true) :
    (((XTGeoDialog.loggingformat st log).1).loggingformat
        ((XTGeoDialog.loggingformat st log).2.1)).2.1.handlers.map
      (fun h => (h.formatter, h.filters.length))
    = log.handlers.map
        (fun h => (some (fmtTemplate st._lformatlevel), h.filters.length + 2)) := by
  have hwf2 : ∀ h ∈ log.handlers, ∀ f ∈ h.filters, f < log.fcounter := by
    intro h hh f hf
    have h1 := List.all_eq_true.mp hwf h hh
    have h2 := List.all_eq_true.mp h1 f hf
    exact of_decide_eq_true h2
  unfold XTGeoDialog.loggingformat
  cases hn : log.handlers with
  | nil => simp [hn, installAll]
  | cons h t =>
    rw [hn] at hwf2
    exact installAll_twice (fmtTemplate st._lformatlevel)
      (h :: t) log.fcounter (log.fcounter + (h :: t).length) hwf2 (by simp)

/-- Witness for C2: the one-handler fresh root logger. -/
theorem C2_formatter_filters_witness :
    log0.WFb = true
    ∧ (((XTGeoDialog.loggingformat xdlg0 log0).1).loggingformat
          ((XTGeoDialog.loggingformat xdlg0 log0).2.1)).2.1.handlers.map
        (fun h => (h.formatter, h.filters.length))
      = log0.handlers.map
          (fun h => (some (fmtTemplate xdlg0._lformatlevel), h.filters.length + 2)) :=
  ⟨rfl, C2_formatter_filters xdlg0 log0 rfl⟩

/-! ### C3 -/

/-- Counterexample to C3: with an environment-sourced level `"INFO"`
captured, an explicit set to `"DEBUG"` via the `logginglevel` setter is
not a no-op — the stored level becomes `"DEBUG"`, not the environment
value. -/
theorem C3_counterexample :
    stEnvINFO._logginglevel_fromenv = some "INFO"
    ∧ stEnvINFO._logginglevel = "INFO"
    ∧ (XTGeoDialog.logginglevelSetter stEnvINFO "DEBUG").toOption.map
        (fun s => s._logginglevel) = some "DEBUG"
    ∧ ("DEBUG" : String) ≠ "INFO" := by
  decide

/-- Claim C3 amended: the environment-captured level only silences the
`logginglevel` argument of `basiclogger` — any such call leaves the stored
level unchanged — while the direct `logginglevel` setter always overwrites
the stored level, even when an environment level was captured. -/
theorem C3_env_level :
    (∀ (st : XTGeoDialog) (log : LoggerState) (name lvl : String)
        (lfmt : Option Int) (out : XTGeoDialog × LoggerState),
      st._logginglevel_fromenv.isSome = true →
      XTGeoDialog.basiclogger st log name (some lvl) lfmt = .ok out →
      out.1._logginglevel = st._logginglevel)
    ∧ (∀ (st : XTGeoDialog) (lvl : String) (out : XTGeoDialog),
        XTGeoDialog.logginglevelSetter st lvl = .ok out →
        out._logginglevel = lvl) := by
  constructor
  · intro st log name lvl lfmt out henv hrun
    obtain ⟨e, he⟩ := Option.isSome_iff_exists.mp henv
    cases lfmt <;>
      · simp only [XTGeoDialog.basiclogger, he,
          XTGeoDialog.loggingformat] at hrun
        cases hrun
        rfl
  · intro st lvl out h
    unfold XTGeoDialog.logginglevelSetter at h
    split at h
    · cases h; rfl
    · cases h

/-- Witness for C3: `basiclogger` on `stEnvINFO` with `DEBUG` keeps
`"INFO"`; the direct setter stores `"DEBUG"`. -/
theorem C3_env_level_witness :
    stEnvINFO._logginglevel_fromenv.isSome = true
    ∧ c3res.1._logginglevel = stEnvINFO._logginglevel
    ∧ ({ xdlg0 with _logginglevel := "DEBUG" } : XTGeoDialog)._logginglevel
        = "DEBUG" :=
  ⟨rfl,
   C3_env_level.1 stEnvINFO log0 "n" "DEBUG" none c3res rfl rfl,
   C3_env_level.2 xdlg0 "DEBUG" { xdlg0 with _logginglevel := "DEBUG" } rfl⟩

end XTGeo
